import Mathlib

/-!
Verification of the asymmetric-opportunity scanner and Monte Carlo risk
engine (`apps/api/app/services/scanner.py`, `apps/api/app/risk/monte_carlo.py`).

Shallow embedding conventions:
* Python floats are modelled as exact rationals (`ℚ`) except for the
  score-to-probability calibrator, whose sigmoid uses `Real.exp` and is
  modelled over `ℝ`.
* Python `int(x)` truncation toward zero is `pyTrunc`.
* Code that can raise (`ZeroDivisionError`, `ValueError`) returns
  `Except String _`.
* Dict-shaped inputs read with `.get(key, default)` are modelled as
  structures of `Option` fields.
-/

/-- `SCORE_WEIGHTS` constant table of `scanner.py`: trend_alignment weight. -/
def SCORE_WEIGHTS_trend_alignment : ℚ := 0.4

/-- `SCORE_WEIGHTS` constant table: momentum weight (defined, never applied
to any sub-score; it still enters `sum(SCORE_WEIGHTS.values())`). -/
def SCORE_WEIGHTS_momentum : ℚ := 0.3

/-- `SCORE_WEIGHTS` constant table: volume weight. -/
def SCORE_WEIGHTS_volume : ℚ := 0.2

/-- `SCORE_WEIGHTS` constant table: volatility weight. -/
def SCORE_WEIGHTS_volatility : ℚ := 0.1

/-- `sum(SCORE_WEIGHTS.values())` — the denominator used by
`score_features` when combining the three sub-scores. -/
def SCORE_WEIGHTS_sum : ℚ :=
  SCORE_WEIGHTS_trend_alignment + SCORE_WEIGHTS_momentum +
    SCORE_WEIGHTS_volume + SCORE_WEIGHTS_volatility

/-- `FeatureScores` pydantic model: the four 0–100 scores. -/
structure FeatureScores where
  price : ℚ
  volume : ℚ
  volatility : ℚ
  overall : ℚ
  deriving DecidableEq, Repr

/-- The feature-map entries read by `score_features`
(`features["..."]` lookups; `pivot_proximity_score` is read with
`features.get(_, 0)` but is always set by `compute_features`, so it is a
plain field with the same meaning). -/
structure ScoreFeaturesInput where
  ema_alignment_bull : Bool
  price_vs_ema20_pct : ℚ
  rsi_14 : ℚ
  rvol : ℚ
  above_vwap : Bool
  vwap_distance_pct : ℚ
  pivot_proximity_score : ℚ
  atr_percentile : ℚ
  bid_ask_spread_bps : ℚ
  deriving DecidableEq, Repr

/-- `score_features` of `scanner.py`: branch-based point accumulation for
price / volume / volatility, each clamped to [0,100] after ×10 rescale,
and the overall weighted score divided by `sum(SCORE_WEIGHTS.values())`. -/
def score_features (f : ScoreFeaturesInput) : FeatureScores :=
  let price_score : ℚ :=
    (if f.ema_alignment_bull then 4 else 0)
    + (if f.price_vs_ema20_pct > 0.02 then 3
       else if f.price_vs_ema20_pct > 0.005 then 1.5
       else if f.price_vs_ema20_pct < -0.02 then 0.5
       else 0)
    + (if 45 ≤ f.rsi_14 ∧ f.rsi_14 ≤ 65 then 3
       else if (35 ≤ f.rsi_14 ∧ f.rsi_14 < 45) ∨ (65 < f.rsi_14 ∧ f.rsi_14 ≤ 75) then 2
       else if f.rsi_14 < 30 then 1
       else 0)
  let volume_score : ℚ :=
    (if f.rvol ≥ 2 then 6
     else if f.rvol ≥ 1.5 then 4
     else if f.rvol ≥ 1.2 then 2
     else if f.rvol < 0.5 then 0.5
     else 0)
    + (if f.above_vwap ∧ |f.vwap_distance_pct| < 0.01 then 3
       else if f.above_vwap then 1.5
       else if |f.vwap_distance_pct| < 0.005 then 2
       else 0)
    + (f.pivot_proximity_score / 10) * 1
  let volatility_score : ℚ :=
    (if 60 ≤ f.atr_percentile ∧ f.atr_percentile ≤ 85 then 6
     else if (40 ≤ f.atr_percentile ∧ f.atr_percentile < 60) ∨
             (85 < f.atr_percentile ∧ f.atr_percentile ≤ 95) then 4
     else if f.atr_percentile > 95 then 1
     else if f.atr_percentile < 20 then 2
     else 0)
    + (if f.bid_ask_spread_bps ≤ 10 then 4
       else if f.bid_ask_spread_bps ≤ 25 then 3
       else if f.bid_ask_spread_bps ≤ 50 then 1
       else 0)
  let price_final := min 100 (max 0 (price_score * 10))
  let volume_final := min 100 (max 0 (volume_score * 10))
  let volatility_final := min 100 (max 0 (volatility_score * 10))
  let overall_score :=
    (price_final * SCORE_WEIGHTS_trend_alignment +
     volume_final * SCORE_WEIGHTS_volume +
     volatility_final * SCORE_WEIGHTS_volatility) / SCORE_WEIGHTS_sum
  { price := price_final, volume := volume_final,
    volatility := volatility_final, overall := overall_score }

/-- The overall score as the spec's §4.3 words describe it: weighted average
of the three sub-scores with weights 0.4 / 0.2 / 0.1 normalized by THEIR sum
(0.7).  Kept separate from `score_features` so the two can be compared. -/
def overall_spec_normalized (price volume volatility : ℚ) : ℚ :=
  (price * 0.4 + volume * 0.2 + volatility * 0.1) / (0.4 + 0.2 + 0.1)

/-- A maximum-favorable feature map: every scoring bucket at its highest
branch (bullish EMA stack, >2% above EMA20, RSI in the sweet spot, rvol ≥ 2,
just above VWAP, pivot score 10, ATR percentile in 60–85, tight spread). -/
def maxFavorableFeatures : ScoreFeaturesInput :=
  { ema_alignment_bull := true
    price_vs_ema20_pct := 0.03
    rsi_14 := 50
    rvol := 2
    above_vwap := true
    vwap_distance_pct := 0.005
    pivot_proximity_score := 10
    atr_percentile := 70
    bid_ask_spread_bps := 5 }

/-- Python `int(x)` : truncation toward zero. -/
def pyTrunc (q : ℚ) : ℤ := if 0 ≤ q then ⌊q⌋ else ⌈q⌉

/-- `position_sizing` of `scanner.py`: `risk_per_share = abs(entry - stop)`;
degenerate `risk_per_share ≤ 0` yields `(0, 0.0)`, otherwise
`shares = int(portfolio_value * risk_pct / risk_per_share)` and
`usd = shares * entry`. -/
def position_sizing (entry_price stop_price portfolio_value risk_pct : ℚ) :
    ℤ × ℚ :=
  let risk_per_share := |entry_price - stop_price|
  if risk_per_share ≤ 0 then (0, 0)
  else
    let max_risk_dollars := portfolio_value * risk_pct
    let shares := pyTrunc (max_risk_dollars / risk_per_share)
    (shares, (shares : ℚ) * entry_price)

/-- `costs_in_r` of `scanner.py`: returns 0 when `risk_per_share ≤ 0`,
otherwise round-trip slippage per share over risk plus fees over risk. -/
def costs_in_r (slippage_bps fees_usd entry_price risk_per_share : ℚ) : ℚ :=
  if risk_per_share ≤ 0 then 0
  else
    let slippage_per_share := (slippage_bps / 10000) * entry_price * 2
    slippage_per_share / risk_per_share + fees_usd / risk_per_share

/-- `GuardrailStatus` enum of `models/opportunities.py`. -/
inductive GuardrailStatus where
  | APPROVED
  | REVIEW
  | BLOCKED
  deriving DecidableEq, Repr

/-- The dict-shaped opportunity data read by `check_guardrails` via
`.get(key, default)`; `none` models a missing key (a missing `"setup"`,
`"risk"` or `"features"` dict makes all of its keys missing). -/
structure GuardrailInput where
  setup_position_size_usd : Option ℚ
  setup_rr_ratio : Option ℚ
  risk_net_expected_r : Option ℚ
  net_expected_r : Option ℚ
  signal_score : Option ℚ
  features_atr_percent : Option ℚ
  features_atr_pct : Option ℚ
  deriving DecidableEq, Repr

/-- Python's `a or b` over an optional float: `None` and `0.0` are falsy. -/
def truthyOr (x : Option ℚ) (d : ℚ) : ℚ :=
  match x with
  | some v => if v = 0 then d else v
  | none => d

/-- The five ordered guardrail checks of `check_guardrails`, as
(condition, status-if-it-fires) pairs, in source order.  `cfg_risk_pct`
is `settings.RISK_PCT_PER_TRADE`. -/
def guardrail_checks (cfg_risk_pct : ℚ) (o : GuardrailInput) :
    List (Bool × GuardrailStatus) :=
  [ (decide ((o.setup_position_size_usd.getD 0) / 100000 > cfg_risk_pct * 2),
      GuardrailStatus.BLOCKED),
    (decide ((o.setup_rr_ratio.getD 0) < 2), GuardrailStatus.BLOCKED),
    (decide ((o.risk_net_expected_r.getD (o.net_expected_r.getD 0)) < 0.05),
      GuardrailStatus.BLOCKED),
    (decide ((o.signal_score.getD 0) < 5), GuardrailStatus.REVIEW),
    (decide (truthyOr o.features_atr_percent (truthyOr o.features_atr_pct 0) > 5),
      GuardrailStatus.REVIEW) ]

/-- First-failing-check semantics: the first pair whose condition holds
decides the status; if none fires the result is APPROVED. -/
def first_failing : List (Bool × GuardrailStatus) → GuardrailStatus
  | [] => GuardrailStatus.APPROVED
  | (c, s) :: rest => if c then s else first_failing rest

/-- `check_guardrails` of `scanner.py`: the literal if-chain
(risk fraction, R:R, net expected R — BLOCKED; signal score, ATR percent —
REVIEW; else APPROVED). -/
def check_guardrails (cfg_risk_pct : ℚ) (o : GuardrailInput) :
    GuardrailStatus :=
  let risk_pct := (o.setup_position_size_usd.getD 0) / 100000
  if risk_pct > cfg_risk_pct * 2 then GuardrailStatus.BLOCKED
  else if (o.setup_rr_ratio.getD 0) < 2 then GuardrailStatus.BLOCKED
  else if (o.risk_net_expected_r.getD (o.net_expected_r.getD 0)) < 0.05 then
    GuardrailStatus.BLOCKED
  else if (o.signal_score.getD 0) < 5 then GuardrailStatus.REVIEW
  else if truthyOr o.features_atr_percent (truthyOr o.features_atr_pct 0) > 5
    then GuardrailStatus.REVIEW
  else GuardrailStatus.APPROVED

/-- The guardrail-relevant fields of the `Opportunity` pydantic object
emitted by the scanner. -/
structure EmittedGuardrailFields where
  guardrail_status : GuardrailStatus
  guardrail_reason : Option String
  deriving DecidableEq, Repr

/-- The opportunity assembly of `scan_opportunities` /
`get_opportunity_by_symbol`: `opportunity_data` is built without any
`guardrail_reason` key, `check_guardrails` fills `guardrail_status`, and
`Opportunity(**opportunity_data)` leaves `guardrail_reason` at its pydantic
default `None`. -/
def assemble_guardrail_fields (cfg_risk_pct : ℚ) (o : GuardrailInput) :
    EmittedGuardrailFields :=
  { guardrail_status := check_guardrails cfg_risk_pct o
    guardrail_reason := none }

/-- `TradeSetup` pydantic model (shares as the Python `int` it is built
from). -/
structure TradeSetup where
  entry : ℚ
  stop : ℚ
  target1 : ℚ
  target2 : ℚ
  position_size_usd : ℚ
  position_size_shares : ℤ
  rr_ratio : ℚ
  deriving DecidableEq, Repr

/-- `generate_trade_setup` of `scanner.py`: long-only setup from the current
price and ATR (`features["atr"]`), position-sized against a fixed $100,000
portfolio with `settings.RISK_PCT_PER_TRADE` (`cfg_risk_pct`).  The final
`rr_ratio = (target_1 - entry_price) / (entry_price - stop_loss)` raises
`ZeroDivisionError` when `entry_price == stop_loss`, modelled as
`Except.error`. -/
def generate_trade_setup (cfg_risk_pct atr current_price : ℚ) :
    Except String TradeSetup :=
  let entry_price := current_price
  let stop_loss := entry_price - 1.5 * atr
  let risk_per_share := entry_price - stop_loss
  let target_1 := entry_price + 2.5 * risk_per_share
  let target_2 := entry_price + 4.0 * risk_per_share
  let sizing := position_sizing entry_price stop_loss 100000 cfg_risk_pct
  if entry_price - stop_loss = 0 then Except.error "ZeroDivisionError"
  else Except.ok
    { entry := entry_price
      stop := stop_loss
      target1 := target_1
      target2 := target_2
      position_size_usd := sizing.2
      position_size_shares := sizing.1
      rr_ratio := (target_1 - entry_price) / (entry_price - stop_loss) }

/-- The three-segment piecewise map of `score_to_probability`, on the
normalized score: linear 0.35–0.45 on [0,0.2], linear 0.45–0.58 on
(0.2,0.6], and `0.58 + 0.14 * (1 / (1 + exp (-5 * (segment_prob - 0.5))))`
above 0.6.  `math.exp` is modelled by `Real.exp`. -/
noncomputable def score_to_probability_segments (normalized : ℝ) : ℝ :=
  if normalized ≤ 0.2 then
    0.35 + 0.10 * (normalized / 0.2)
  else if normalized ≤ 0.6 then
    0.45 + 0.13 * ((normalized - 0.2) / 0.4)
  else
    0.58 + 0.14 * (1 / (1 + Real.exp (-5 * ((normalized - 0.6) / 0.4 - 0.5))))

/-- `score_to_probability` of `scanner.py`: clamp the score to [0,100]
(`max(0.0, min(100.0, signal_score))`), normalize by 100, then apply the
piecewise segments. -/
noncomputable def score_to_probability (signal_score : ℝ) : ℝ :=
  score_to_probability_segments (max 0 (min 100 signal_score) / 100)

/-- `SimulationParameters` dataclass of `monte_carlo.py` (the two `int`
fields and the counts as `ℤ`, floats as `ℚ`). -/
structure SimulationParameters where
  p_win : ℚ
  r_win : ℚ
  risk_pct : ℚ
  trades_per_week : ℤ
  weeks : ℤ
  cost_per_trade_usd : ℚ
  slippage_bps : ℚ
  starting_capital : ℚ
  num_simulations : ℤ
  deriving DecidableEq, Repr

/-- `validate_parameters` of `monte_carlo.py`: the ordered chain of range
checks, each raising `ValueError` (modelled as `Except.error` with the
source's message). -/
def validate_parameters (p : SimulationParameters) : Except String Unit :=
  if ¬(0 ≤ p.p_win ∧ p.p_win ≤ 1) then
    Except.error "p_win must be between 0.0 and 1.0"
  else if p.r_win ≤ 0 then Except.error "r_win must be positive"
  else if ¬(0.0001 ≤ p.risk_pct ∧ p.risk_pct ≤ 0.1) then
    Except.error "risk_pct must be between 0.0001 and 0.1"
  else if p.trades_per_week ≤ 0 then
    Except.error "trades_per_week must be positive"
  else if p.weeks ≤ 0 then Except.error "weeks must be positive"
  else if p.cost_per_trade_usd < 0 then
    Except.error "cost_per_trade_usd cannot be negative"
  else if p.slippage_bps < 0 then
    Except.error "slippage_bps cannot be negative"
  else if p.starting_capital ≤ 0 then
    Except.error "starting_capital must be positive"
  else if p.num_simulations ≤ 0 then
    Except.error "num_simulations must be positive"
  else Except.ok ()

/-- The Monte Carlo parameter bounds exactly as the spec's §3 words them
(in particular `risk_pct ∈ (0, 0.1]`), for comparison with the bounds
`validate_parameters` actually enforces. -/
def spec_param_bounds (p : SimulationParameters) : Prop :=
  0 ≤ p.p_win ∧ p.p_win ≤ 1 ∧ 0 < p.r_win ∧
  0 < p.risk_pct ∧ p.risk_pct ≤ 0.1 ∧
  0 < p.trades_per_week ∧ 0 < p.weeks ∧
  0 ≤ p.cost_per_trade_usd ∧ 0 ≤ p.slippage_bps ∧
  0 < p.starting_capital ∧ 0 < p.num_simulations

/-- The bounds `validate_parameters` enforces: as `spec_param_bounds`
except `risk_pct ∈ [0.0001, 0.1]`. -/
def code_param_bounds (p : SimulationParameters) : Prop :=
  0 ≤ p.p_win ∧ p.p_win ≤ 1 ∧ 0 < p.r_win ∧
  0.0001 ≤ p.risk_pct ∧ p.risk_pct ≤ 0.1 ∧
  0 < p.trades_per_week ∧ 0 < p.weeks ∧
  0 ≤ p.cost_per_trade_usd ∧ 0 ≤ p.slippage_bps ∧
  0 < p.starting_capital ∧ 0 < p.num_simulations

/-- Modelled from the spec: numpy's seeded generator
(`np.random.seed(seed)` followed by `np.random.random`) is external library
code; what the source relies on is that it is a deterministic stream of
values in [0,1) fully determined by the seed.  A linear congruential step
stands in for that stream. -/
def lcg_next (s : ℕ) : ℕ := (1103515245 * s + 12345) % 2147483648

/-- The state of the modelled generator after `k+1` steps from `seed`. -/
def lcg_state (seed : ℕ) : ℕ → ℕ
  | 0 => lcg_next seed
  | k + 1 => lcg_next (lcg_state seed k)

/-- The `k`-th uniform draw in [0,1) of the modelled seeded generator. -/
def np_uniform (seed k : ℕ) : ℚ := (lcg_state seed k : ℚ) / 2147483648

/-- `total_trades = params.trades_per_week * params.weeks`. -/
def total_trades (p : SimulationParameters) : ℕ :=
  (p.trades_per_week * p.weeks).toNat

/-- The `num_simulations × total_trades` win/loss grid:
`np.random.random(shape) < p_win`, the draws taken row-major from the
seeded stream. -/
def trade_outcomes (p : SimulationParameters) (seed : ℕ) :
    List (List Bool) :=
  (List.range p.num_simulations.toNat).map fun i =>
    (List.range (total_trades p)).map fun j =>
      decide (np_uniform seed (i * total_trades p + j) < p.p_win)

/-- `cost_per_trade_pct = cost_per_trade_usd / starting_capital`. -/
def cost_per_trade_pct (p : SimulationParameters) : ℚ :=
  p.cost_per_trade_usd / p.starting_capital

/-- `slippage_impact = slippage_bps / 10000 * risk_pct`. -/
def slippage_impact (p : SimulationParameters) : ℚ :=
  (p.slippage_bps / 10000) * p.risk_pct

/-- The adjusted per-trade return grid: `r_win * risk_pct` on a win,
`-risk_pct` on a loss, minus cost and slippage fractions on every trade. -/
def trade_returns_grid (p : SimulationParameters) (seed : ℕ) :
    List (List ℚ) :=
  (trade_outcomes p seed).map fun row => row.map fun w =>
    (if w then p.r_win * p.risk_pct else -p.risk_pct)
      - cost_per_trade_pct p - slippage_impact p

/-- Multiplicative compounding: successive partial products
`c * Π (1 + r)`, one value per trade (`np.cumprod(1 + returns)` scaled by
the starting capital). -/
def compound (c : ℚ) : List ℚ → List ℚ
  | [] => []
  | r :: rs => (c * (1 + r)) :: compound (c * (1 + r)) rs

/-- One equity curve: the starting capital prepended to the compounded
partial products (`np.hstack([starting, cumprod * starting])`). -/
def equity_path (capital : ℚ) (returns : List ℚ) : List ℚ :=
  capital :: compound capital returns

/-- All equity curves of the simulation. -/
def equity_paths (p : SimulationParameters) (seed : ℕ) : List (List ℚ) :=
  (trade_returns_grid p seed).map (equity_path p.starting_capital)

/-- `final_equity = equity_paths[:, -1]`. -/
def final_equity (p : SimulationParameters) (seed : ℕ) : List ℚ :=
  (equity_paths p seed).map fun path => path.getLast?.getD 0

/-- Elementwise drawdowns `(equity - running_max) / running_max`, carrying
the running maximum `m` (`np.maximum.accumulate`). -/
def dd_list (m : ℚ) : List ℚ → List ℚ
  | [] => []
  | e :: es => (e - max m e) / max m e :: dd_list (max m e) es

/-- Minimum of a list of rationals (0 on the empty list). -/
def min_list : List ℚ → ℚ
  | [] => 0
  | [x] => x
  | x :: y :: xs => min x (min_list (y :: xs))

/-- Maximum of a list of rationals (0 on the empty list). -/
def max_list : List ℚ → ℚ
  | [] => 0
  | [x] => x
  | x :: y :: xs => max x (max_list (y :: xs))

/-- Max drawdown of one path: `abs` of the most negative drawdown, the
running maximum seeded with the first equity value. -/
def max_drawdown_of_path : List ℚ → ℚ
  | [] => 0
  | h :: t => |min_list (dd_list h (h :: t))|

/-- `calculate_max_drawdowns` of `monte_carlo.py`, per path. -/
def calculate_max_drawdowns (paths : List (List ℚ)) : List ℚ :=
  paths.map max_drawdown_of_path

/-- `np.mean` over rationals (0 on the empty list, which never occurs for
validated parameters). -/
def meanQ (xs : List ℚ) : ℚ := xs.sum / xs.length

/-- Population variance, `np.std` squared. -/
def varianceQ (xs : List ℚ) : ℚ := meanQ (xs.map fun x => (x - meanQ xs) ^ 2)

/-- Insertion into a sorted list, for `np.sort`. -/
def insertSorted (x : ℚ) : List ℚ → List ℚ
  | [] => [x]
  | y :: ys => if x ≤ y then x :: y :: ys else y :: insertSorted x ys

/-- Ascending sort of a rational list. -/
def sortQ (xs : List ℚ) : List ℚ := xs.foldr insertSorted []

/-- `np.median`: middle element of the sorted list, or the average of the
two middle elements. -/
def medianQ (xs : List ℚ) : ℚ :=
  let s := sortQ xs
  let n := s.length
  if n = 0 then 0
  else if n % 2 = 1 then s.getD (n / 2) 0
  else (s.getD (n / 2 - 1) 0 + s.getD (n / 2) 0) / 2

/-- `np.percentile` with its default linear interpolation at rank
`(n - 1) * q / 100`. -/
def percentileQ (q : ℚ) (xs : List ℚ) : ℚ :=
  let s := sortQ xs
  let n := s.length
  if n = 0 then 0
  else
    let rank : ℚ := ((n : ℚ) - 1) * q / 100
    let lo := (⌊rank⌋).toNat
    let hi := (⌈rank⌉).toNat
    s.getD lo 0 + (rank - (lo : ℚ)) * (s.getD hi 0 - s.getD lo 0)

/-- `np.mean` of a boolean condition over a list: the satisfying fraction. -/
def fractionSatisfying (pred : ℚ → Bool) (xs : List ℚ) : ℚ :=
  (xs.countP pred : ℚ) / xs.length

/-- Per-path weekly returns `np.diff(equity) / equity[:-1]`. -/
def path_returns : List ℚ → List ℚ
  | [] => []
  | [_] => []
  | a :: b :: rest => (b - a) / a :: path_returns (b :: rest)

/-- The flattened grid of periodic returns used for the Sharpe ratio. -/
def weekly_returns (p : SimulationParameters) (seed : ℕ) : List ℚ :=
  ((equity_paths p seed).map path_returns).flatten

/-- `SimulationResults` dataclass of `monte_carlo.py`.  The two statistics
that take a square root in the source (`np.std` and the Sharpe ratio) are
real-valued; everything else is exact rational data. -/
structure SimulationResults where
  equity_paths : List (List ℚ)
  final_equity : List ℚ
  max_drawdowns : List ℚ
  trade_returns : List (List ℚ)
  mean_final_equity : ℚ
  median_final_equity : ℚ
  std_final_equity : ℝ
  prob_2x : ℚ
  prob_3x : ℚ
  prob_loss : ℚ
  p95_max_drawdown : ℚ
  sharpe_ratio : ℝ
  max_equity : ℚ
  min_equity : ℚ

/-- `run_monte_carlo_simulation` of `monte_carlo.py` with the seed made
explicit (the source pins `np.random.seed(42)`): validate, then build the
outcome grid, adjusted returns, equity curves, drawdowns and derived
statistics.  Raising `ValueError` from validation is `Except.error`, so no
result fields exist on invalid input. -/
noncomputable def run_with_seed (p : SimulationParameters) (seed : ℕ) :
    Except String SimulationResults :=
  match validate_parameters p with
  | Except.error e => Except.error e
  | Except.ok _ =>
    let finals := final_equity p seed
    let weekly := weekly_returns p seed
    Except.ok
      { equity_paths := equity_paths p seed
        final_equity := finals
        max_drawdowns := calculate_max_drawdowns (equity_paths p seed)
        trade_returns := trade_returns_grid p seed
        mean_final_equity := meanQ finals
        median_final_equity := medianQ finals
        std_final_equity := Real.sqrt (varianceQ finals : ℚ)
        prob_2x := fractionSatisfying
          (fun e => decide (2 * p.starting_capital ≤ e)) finals
        prob_3x := fractionSatisfying
          (fun e => decide (3 * p.starting_capital ≤ e)) finals
        prob_loss := fractionSatisfying
          (fun e => decide (e < p.starting_capital)) finals
        p95_max_drawdown :=
          percentileQ 95 (calculate_max_drawdowns (equity_paths p seed))
        sharpe_ratio :=
          if 0 < varianceQ weekly then
            ((meanQ weekly : ℝ) / Real.sqrt (varianceQ weekly : ℚ)) *
              Real.sqrt 52
          else 0
        max_equity := max_list finals
        min_equity := min_list finals }

/-- `run_monte_carlo_simulation` as the source ships it: the seed is the
hidden constant 42. -/
noncomputable def run_monte_carlo_simulation (p : SimulationParameters) :
    Except String SimulationResults :=
  run_with_seed p 42

/-! ## Claim theorems -/

/-- C7: when `risk_per_share` is zero (entry == stop) or negative, the
degenerate case is handled without exceptions as a zero/neutral result:
`position_sizing` returns `(0, 0.0)` and `costs_in_r` returns `0.0`, for
every choice of the other arguments. -/
theorem degenerate_risk_zero_neutral :
    (∀ entry portfolio risk_pct : ℚ,
      position_sizing entry entry portfolio risk_pct = (0, 0)) ∧
    (∀ slippage fees entry rps : ℚ, rps ≤ 0 →
      costs_in_r slippage fees entry rps = 0) := by
  constructor
  · intro entry portfolio risk_pct
    simp [position_sizing]
  · intro slippage fees entry rps h
    simp [costs_in_r, if_pos h]

/-- Witness for C7 at entry = stop = 100 and `risk_per_share = 0`. -/
theorem degenerate_risk_zero_neutral_witness :
    position_sizing 100 100 100000 (5 / 1000) = (0, 0) ∧
    costs_in_r 10 1 100 0 = 0 :=
  ⟨degenerate_risk_zero_neutral.1 100 100000 (5 / 1000),
   degenerate_risk_zero_neutral.2 10 1 100 0 (by norm_num)⟩

/-- C8 (code bug): with ATR = 0 the generator's `rr_ratio` division is
`0.0 / 0.0`, a `ZeroDivisionError`, instead of the degenerate zero-size
setup the spec requires; `position_sizing` and `costs_in_r` guard the
`risk ≤ 0` case but `generate_trade_setup` does not. -/
theorem generate_trade_setup_raises_on_zero_atr :
    generate_trade_setup (5 / 1000) 0 100 =
      Except.error "ZeroDivisionError" := by
  norm_num [generate_trade_setup]

/-- C10: for every ATR > 0 the generated setup exists (no exception), has
`rr_ratio` exactly 2.5 in exact arithmetic, and the `rr_ratio < 2.0`
BLOCKED guardrail condition (the second entry of `guardrail_checks`) is
false on it. -/
theorem generated_rr_ratio_exactly_two_point_five :
    ∀ cfg atr price : ℚ, 0 < atr →
      ∃ s : TradeSetup, generate_trade_setup cfg atr price = Except.ok s ∧
        s.rr_ratio = 2.5 ∧
        ∀ (cfg2 : ℚ) (o : GuardrailInput),
          o.setup_rr_ratio = some s.rr_ratio →
          (guardrail_checks cfg2 o).getD 1 (true, GuardrailStatus.BLOCKED) =
            (false, GuardrailStatus.BLOCKED) := by
  intro cfg atr price h
  have hden : price - (price - 1.5 * atr) = 1.5 * atr := by ring
  have hne : price - (price - 1.5 * atr) ≠ 0 := by
    rw [hden]; positivity
  have hrr : (price + 2.5 * (price - (price - 1.5 * atr)) - price) /
      (price - (price - 1.5 * atr)) = 2.5 := by
    rw [hden]
    field_simp
  refine ⟨⟨price, price - 1.5 * atr,
    price + 2.5 * (price - (price - 1.5 * atr)),
    price + 4.0 * (price - (price - 1.5 * atr)),
    (position_sizing price (price - 1.5 * atr) 100000 cfg).2,
    (position_sizing price (price - 1.5 * atr) 100000 cfg).1,
    (price + 2.5 * (price - (price - 1.5 * atr)) - price) /
      (price - (price - 1.5 * atr))⟩, ?_, hrr, ?_⟩
  · simp only [generate_trade_setup, if_neg hne]
  · intro cfg2 o ho
    simp only [guardrail_checks, List.getD_cons_succ, List.getD_cons_zero,
      ho, Option.getD_some, hrr, Prod.mk.injEq]
    norm_num

/-- Witness for C10 at ATR = 2, price = 100. -/
theorem generated_rr_ratio_witness :
    ∃ s : TradeSetup, generate_trade_setup (5 / 1000) 2 100 = Except.ok s ∧
      s.rr_ratio = 2.5 ∧
      ∀ (cfg2 : ℚ) (o : GuardrailInput),
        o.setup_rr_ratio = some s.rr_ratio →
        (guardrail_checks cfg2 o).getD 1 (true, GuardrailStatus.BLOCKED) =
          (false, GuardrailStatus.BLOCKED) :=
  generated_rr_ratio_exactly_two_point_five (5 / 1000) 2 100 (by norm_num)

/-- C3: `check_guardrails` implements first-failing-check semantics over
the fixed check list, the statuses of that list put every BLOCKED check
before every REVIEW check, and any opportunity whose setup has
`rr_ratio = 1.5` is BLOCKED regardless of its `signal_score`. -/
theorem guardrails_ordered_first_failing :
    ∀ (cfg : ℚ) (o : GuardrailInput),
      check_guardrails cfg o = first_failing (guardrail_checks cfg o) ∧
      (guardrail_checks cfg o).map Prod.snd =
        [GuardrailStatus.BLOCKED, GuardrailStatus.BLOCKED,
         GuardrailStatus.BLOCKED, GuardrailStatus.REVIEW,
         GuardrailStatus.REVIEW] ∧
      (o.setup_rr_ratio = some 1.5 →
        check_guardrails cfg o = GuardrailStatus.BLOCKED) := by
  intro cfg o
  refine ⟨?_, by simp [guardrail_checks], ?_⟩
  · simp only [check_guardrails, guardrail_checks, first_failing,
      decide_eq_true_eq]
  · intro h
    simp only [check_guardrails, h, Option.getD_some]
    split_ifs with h1 h2 <;> first | rfl | (exfalso; exact h2 (by norm_num))

/-- Witness for C3: a setup with `rr_ratio = 1.5` and a maximal
`signal_score` of 100 is BLOCKED. -/
theorem guardrails_ordered_first_failing_witness :
    check_guardrails (5 / 1000)
      ⟨some 500, some 1.5, some 1, none, some 100, some 1, none⟩ =
      GuardrailStatus.BLOCKED :=
  (guardrails_ordered_first_failing (5 / 1000)
    ⟨some 500, some 1.5, some 1, none, some 100, some 1, none⟩).2.2 rfl

/-- C9 counterexample: a BLOCKED opportunity emitted by the scanner's
assembly carries no reason string — `guardrail_reason` is `None`. -/
theorem guardrail_reason_never_set_counterexample :
    (assemble_guardrail_fields (5 / 1000)
        ⟨some 500, some 1.5, some 1, none, some 100, some 1, none⟩).guardrail_status
      ≠ GuardrailStatus.APPROVED ∧
    (assemble_guardrail_fields (5 / 1000)
        ⟨some 500, some 1.5, some 1, none, some 100, some 1, none⟩).guardrail_reason
      = none := by
  constructor
  · have h := (guardrails_ordered_first_failing (5 / 1000)
      ⟨some 500, some 1.5, some 1, none, some 100, some 1, none⟩).2.2 rfl
    simp [assemble_guardrail_fields, h]
  · rfl

/-- C9 amended: the scanner's assembly never sets `guardrail_reason`; every
emitted opportunity, approved or not, carries `guardrail_reason = None`. -/
theorem guardrail_reason_always_none :
    ∀ (cfg : ℚ) (o : GuardrailInput),
      (assemble_guardrail_fields cfg o).guardrail_reason = none := by
  intro cfg o
  rfl

/-- C1 counterexample: at the maximum-favorable feature map all three
sub-scores are 100, yet the overall score is 70, not 100 — because
`score_features` divides by `sum(SCORE_WEIGHTS.values())` = 1.0 (the unused
momentum weight 0.3 included), not by 0.4 + 0.2 + 0.1 = 0.7 as the spec's
normalization would give. -/
theorem overall_score_not_normalized_counterexample :
    score_features maxFavorableFeatures =
      { price := 100, volume := 100, volatility := 100, overall := 70 } ∧
    overall_spec_normalized 100 100 100 = 100 ∧
    (score_features maxFavorableFeatures).overall ≠
      overall_spec_normalized 100 100 100 := by
  refine ⟨?_, by norm_num [overall_spec_normalized], ?_⟩
  · norm_num [score_features, maxFavorableFeatures, abs_eq_max_neg,
      SCORE_WEIGHTS_sum, SCORE_WEIGHTS_trend_alignment, SCORE_WEIGHTS_momentum,
      SCORE_WEIGHTS_volume, SCORE_WEIGHTS_volatility]
  · norm_num [score_features, maxFavorableFeatures, abs_eq_max_neg,
      overall_spec_normalized, SCORE_WEIGHTS_sum, SCORE_WEIGHTS_trend_alignment,
      SCORE_WEIGHTS_momentum, SCORE_WEIGHTS_volume, SCORE_WEIGHTS_volatility]

/-- C1 amended: the overall score is the weighted combination
`0.4·price + 0.2·volume + 0.1·volatility` divided by the sum of all four
configured weights (0.4 + 0.3 + 0.2 + 0.1 = 1.0), so the sub-scores
contribute 40% / 20% / 10%; the maximum-favorable feature map yields
sub-scores of 100 and an overall-score ceiling of exactly 70. -/
theorem overall_score_weighted_by_full_sum :
    (∀ f : ScoreFeaturesInput, (score_features f).overall =
      ((score_features f).price * 0.4 + (score_features f).volume * 0.2 +
        (score_features f).volatility * 0.1) / (0.4 + 0.3 + 0.2 + 0.1)) ∧
    score_features maxFavorableFeatures =
      { price := 100, volume := 100, volatility := 100, overall := 70 } := by
  constructor
  · intro f
    simp only [score_features, SCORE_WEIGHTS_sum, SCORE_WEIGHTS_trend_alignment,
      SCORE_WEIGHTS_momentum, SCORE_WEIGHTS_volume, SCORE_WEIGHTS_volatility]
  · norm_num [score_features, maxFavorableFeatures, abs_eq_max_neg,
      SCORE_WEIGHTS_sum, SCORE_WEIGHTS_trend_alignment, SCORE_WEIGHTS_momentum,
      SCORE_WEIGHTS_volume, SCORE_WEIGHTS_volatility]

/-- Helper: `validate_parameters` succeeds exactly on the bounds it
enforces (`code_param_bounds`). -/
theorem validate_parameters_ok_iff (p : SimulationParameters) :
    validate_parameters p = Except.ok () ↔ code_param_bounds p := by
  unfold validate_parameters code_param_bounds
  constructor
  · intro h
    split_ifs at h with h1 h2 h3 h4 h5 h6 h7 h8 h9
    push_neg at h1 h3
    exact ⟨h1.1, h1.2, not_le.mp h2, h3.1, h3.2, not_le.mp h4, not_le.mp h5,
      not_lt.mp h6, not_lt.mp h7, not_le.mp h8, not_le.mp h9⟩
  · rintro ⟨ha, hb, hc, hd, he, hf, hg, hh, hi, hj, hk⟩
    rw [if_neg (not_not_intro ⟨ha, hb⟩),
      if_neg (not_le.mpr hc),
      if_neg (not_not_intro ⟨hd, he⟩),
      if_neg (not_le.mpr hf), if_neg (not_le.mpr hg),
      if_neg (not_lt.mpr hh), if_neg (not_lt.mpr hi),
      if_neg (not_le.mpr hj), if_neg (not_le.mpr hk)]

/-- C4 counterexample: `risk_pct = 0.00005` satisfies every documented
(spec §3) bound — in particular `risk_pct ∈ (0, 0.1]` — yet
`validate_parameters` rejects it, because the code's lower bound is
0.0001, not 0. -/
theorem validate_rejects_spec_valid_risk_pct :
    spec_param_bounds
      ⟨1 / 2, 2, 1 / 20000, 10, 52, 1, 10, 10000, 1000⟩ ∧
    validate_parameters
      ⟨1 / 2, 2, 1 / 20000, 10, 52, 1, 10, 10000, 1000⟩ =
      Except.error "risk_pct must be between 0.0001 and 0.1" := by
  constructor
  · refine ⟨by norm_num, by norm_num, by norm_num, by norm_num, by norm_num,
      by norm_num, by norm_num, by norm_num, by norm_num, by norm_num,
      by norm_num⟩
  · norm_num [validate_parameters]

/-- C4 amended: validation rejects a parameter set iff some field is
outside the bounds the code enforces (as the claim, with the `risk_pct`
lower bound 0.0001 instead of "> 0"), and an invalid parameter set makes
`run_with_seed` return the validation error before any simulation data is
computed — no partial results. -/
theorem validation_rejects_iff_bounds :
    ∀ p : SimulationParameters,
      (validate_parameters p = Except.ok () ↔ code_param_bounds p) ∧
      (∀ (e : String) (seed : ℕ), validate_parameters p = Except.error e →
        run_with_seed p seed = Except.error e) := by
  intro p
  refine ⟨validate_parameters_ok_iff p, ?_⟩
  intro e seed h
  unfold run_with_seed
  rw [h]

/-- Witness for C4: a `risk_pct = 0` parameter set is rejected and `run`
propagates exactly the validation error. -/
theorem validation_rejects_iff_bounds_witness :
    run_with_seed ⟨1 / 2, 2, 0, 10, 52, 1, 10, 10000, 1000⟩ 42 =
      Except.error "risk_pct must be between 0.0001 and 0.1" :=
  (validation_rejects_iff_bounds ⟨1 / 2, 2, 0, 10, 52, 1, 10, 10000, 1000⟩).2
    "risk_pct must be between 0.0001 and 0.1" 42
    (by norm_num [validate_parameters])

/-- C6: the engine is deterministic — equal parameters and equal seed give
identical `SimulationResults` (every array and derived scalar), and the
shipped `run_monte_carlo_simulation` is `run_with_seed` at the pinned
seed 42. -/
theorem simulation_reproducible :
    ∀ (p1 p2 : SimulationParameters) (s1 s2 : ℕ), p1 = p2 → s1 = s2 →
      run_with_seed p1 s1 = run_with_seed p2 s2 ∧
      run_monte_carlo_simulation p1 = run_with_seed p1 42 := by
  intro p1 p2 s1 s2 hp hs
  subst hp
  subst hs
  exact ⟨rfl, rfl⟩

/-- Witness for C6 at the spec's concrete scenario parameters, seed 42. -/
theorem simulation_reproducible_witness :
    run_with_seed ⟨9 / 20, 5 / 2, 1 / 200, 10, 52, 1, 10, 10000, 1000⟩ 42 =
      run_with_seed ⟨9 / 20, 5 / 2, 1 / 200, 10, 52, 1, 10, 10000, 1000⟩ 42 :=
  (simulation_reproducible ⟨9 / 20, 5 / 2, 1 / 200, 10, 52, 1, 10, 10000, 1000⟩
    ⟨9 / 20, 5 / 2, 1 / 200, 10, 52, 1, 10, 10000, 1000⟩ 42 42 rfl rfl).1

/-- Helper: compounded equities stay non-negative when the starting value
is non-negative and every return is ≥ −1. -/
theorem compound_nonneg (rs : List ℚ) :
    ∀ c : ℚ, 0 ≤ c → (∀ r ∈ rs, -1 ≤ r) →
      ∀ e ∈ compound c rs, 0 ≤ e := by
  induction rs with
  | nil =>
    intro c _ _ e he
    simp [compound] at he
  | cons r rs ih =>
    intro c hc hr e he
    have hr1 : -1 ≤ r := hr r (List.mem_cons_self r rs)
    have hc2 : 0 ≤ c * (1 + r) := mul_nonneg hc (by linarith)
    simp only [compound, List.mem_cons] at he
    rcases he with rfl | he
    · exact hc2
    · exact ih (c * (1 + r)) hc2
        (fun x hx => hr x (List.mem_cons_of_mem r hx)) e he

/-- Helper: with a positive running maximum and non-negative equities,
every drawdown entry lies in [−1, 0]. -/
theorem dd_list_bounds (es : List ℚ) :
    ∀ m : ℚ, 0 < m → (∀ e ∈ es, 0 ≤ e) →
      ∀ d ∈ dd_list m es, -1 ≤ d ∧ d ≤ 0 := by
  induction es with
  | nil =>
    intro m _ _ d hd
    simp [dd_list] at hd
  | cons e es ih =>
    intro m hm he d hd
    have hm2 : 0 < max m e := lt_max_iff.mpr (Or.inl hm)
    have he0 : 0 ≤ e := he e (List.mem_cons_self e es)
    simp only [dd_list, List.mem_cons] at hd
    rcases hd with rfl | hd
    · constructor
      · rw [le_div_iff hm2]
        linarith
      · rw [div_le_iff hm2]
        have := le_max_right m e
        linarith
    · exact ih (max m e) hm2
        (fun x hx => he x (List.mem_cons_of_mem e hx)) d hd

/-- Helper: the minimum of a list of values in [−1, 0] is in [−1, 0]. -/
theorem min_list_bounds (xs : List ℚ)
    (h : ∀ x ∈ xs, -1 ≤ x ∧ x ≤ 0) :
    -1 ≤ min_list xs ∧ min_list xs ≤ 0 := by
  induction xs with
  | nil => simp [min_list]
  | cons x xs ih =>
    cases xs with
    | nil => simpa [min_list] using h x (List.mem_cons_self x [])
    | cons y ys =>
      have hx := h x (List.mem_cons_self x (y :: ys))
      have hrest := ih (fun z hz => h z (List.mem_cons_of_mem x hz))
      refine ⟨le_min hx.1 hrest.1, ?_⟩
      calc min_list (x :: y :: ys) = min x (min_list (y :: ys)) := by
            simp [min_list]
        _ ≤ x := min_le_left x (min_list (y :: ys))
        _ ≤ 0 := hx.2

/-- Helper: the max drawdown of a path with positive first value and
non-negative tail lies in [0, 1]. -/
theorem max_drawdown_of_path_bounds {h : ℚ} {t : List ℚ} (hm : 0 < h)
    (ht : ∀ e ∈ t, 0 ≤ e) :
    0 ≤ max_drawdown_of_path (h :: t) ∧ max_drawdown_of_path (h :: t) ≤ 1 := by
  have hall : ∀ e ∈ h :: t, 0 ≤ e := by
    intro e he
    rcases List.mem_cons.mp he with rfl | he
    · exact hm.le
    · exact ht e he
  have hdd := dd_list_bounds (h :: t) h hm hall
  have hmin := min_list_bounds (dd_list h (h :: t)) hdd
  constructor
  · exact abs_nonneg (min_list (dd_list h (h :: t)))
  · simp only [max_drawdown_of_path]
    rw [abs_le]
    constructor <;> linarith [hmin.1, hmin.2]

/-- C5 amended: every per-path max drawdown is non-negative, and lies in
[0, 1] whenever every adjusted per-trade return is ≥ −1 (so equity never
goes negative); validated parameters allow a cost_per_trade_usd so large
relative to starting_capital that returns fall below −1 and the drawdown
exceeds 1 (see the counterexample). -/
theorem max_drawdowns_in_unit_interval :
    ∀ (p : SimulationParameters) (seed : ℕ),
      validate_parameters p = Except.ok () →
      (∀ r ∈ (trade_returns_grid p seed).flatten, -1 ≤ r) →
      ∀ d ∈ calculate_max_drawdowns (equity_paths p seed), 0 ≤ d ∧ d ≤ 1 := by
  intro p seed hv hr d hd
  have hcap : 0 < p.starting_capital :=
    ((validate_parameters_ok_iff p).mp hv).2.2.2.2.2.2.2.2.2.1
  simp only [calculate_max_drawdowns, List.mem_map] at hd
  obtain ⟨path, hpath, rfl⟩ := hd
  simp only [equity_paths, List.mem_map] at hpath
  obtain ⟨rets, hrets, rfl⟩ := hpath
  have hretsmem : ∀ r ∈ rets, -1 ≤ r := fun r hrm =>
    hr r (List.mem_flatten.mpr ⟨rets, hrets, hrm⟩)
  have hcomp : ∀ e ∈ compound p.starting_capital rets, 0 ≤ e :=
    compound_nonneg rets p.starting_capital hcap.le hretsmem
  exact max_drawdown_of_path_bounds hcap hcomp

/-- Witness for C5 (amended) at a benign one-trade parameter set, seed 42:
the single computed max drawdown 0.0101 is in [0, 1]. -/
theorem max_drawdowns_in_unit_interval_witness :
    0 ≤ (101 / 10000 : ℚ) ∧ (101 / 10000 : ℚ) ≤ 1 :=
  max_drawdowns_in_unit_interval ⟨1 / 2, 2, 1 / 100, 1, 1, 1, 0, 10000, 1⟩ 42
    (by norm_num [validate_parameters])
    (by
      intro r hr
      norm_num [trade_returns_grid, trade_outcomes, total_trades, np_uniform,
        lcg_state, lcg_next, cost_per_trade_pct, slippage_impact,
        List.range_succ] at hr
      rw [hr]
      norm_num)
    (101 / 10000)
    (by
      norm_num [calculate_max_drawdowns, equity_paths, equity_path, compound,
        max_drawdown_of_path, dd_list, min_list, abs_eq_max_neg,
        trade_returns_grid, trade_outcomes, total_trades, np_uniform,
        lcg_state, lcg_next, cost_per_trade_pct, slippage_impact,
        List.range_succ])

/-- C5 counterexample: the validated parameter set
(p_win = 0, r_win = 2, risk_pct = 0.1, 1 trade, cost_per_trade_usd = 30000,
starting_capital = 10000) gives a per-trade return of −3.1, a negative
equity value, and a computed max drawdown of 3.1 > 1. -/
theorem drawdown_exceeds_one_counterexample :
    validate_parameters ⟨0, 2, 1 / 10, 1, 1, 30000, 0, 10000, 1⟩ =
      Except.ok () ∧
    calculate_max_drawdowns
      (equity_paths ⟨0, 2, 1 / 10, 1, 1, 30000, 0, 10000, 1⟩ 42) = [31 / 10] ∧
    ¬((31 : ℚ) / 10 ≤ 1) := by
  refine ⟨by norm_num [validate_parameters], ?_, by norm_num⟩
  norm_num [calculate_max_drawdowns, equity_paths, equity_path, compound,
    max_drawdown_of_path, dd_list, min_list, abs_eq_max_neg,
    trade_returns_grid, trade_outcomes, total_trades, np_uniform,
    lcg_state, lcg_next, cost_per_trade_pct, slippage_impact, List.range_succ]

/-- Helper: the piecewise segment map is monotone on the reals. -/
theorem score_to_probability_segments_mono :
    ∀ x y : ℝ, x ≤ y →
      score_to_probability_segments x ≤ score_to_probability_segments y := by
  intro x y hxy
  have Ex : (0:ℝ) < Real.exp (-5 * ((x - 0.6) / 0.4 - 0.5)) := Real.exp_pos _
  have Ey : (0:ℝ) < Real.exp (-5 * ((y - 0.6) / 0.4 - 0.5)) := Real.exp_pos _
  have SxPos : 0 < 1 / (1 + Real.exp (-5 * ((x - 0.6) / 0.4 - 0.5))) := by
    positivity
  have SyPos : 0 < 1 / (1 + Real.exp (-5 * ((y - 0.6) / 0.4 - 0.5))) := by
    positivity
  have SxLt : 1 / (1 + Real.exp (-5 * ((x - 0.6) / 0.4 - 0.5))) < 1 := by
    rw [div_lt_one (by positivity)]
    linarith
  have SyLt : 1 / (1 + Real.exp (-5 * ((y - 0.6) / 0.4 - 0.5))) < 1 := by
    rw [div_lt_one (by positivity)]
    linarith
  have SMono : 1 / (1 + Real.exp (-5 * ((x - 0.6) / 0.4 - 0.5))) ≤
      1 / (1 + Real.exp (-5 * ((y - 0.6) / 0.4 - 0.5))) := by
    apply one_div_le_one_div_of_le (by positivity)
    have harg : -5 * ((y - 0.6) / 0.4 - 0.5) ≤ -5 * ((x - 0.6) / 0.4 - 0.5) := by
      ring_nf
      linarith
    have := Real.exp_le_exp.mpr harg
    linarith
  unfold score_to_probability_segments
  split_ifs <;>
    first
      | linarith
      | (ring_nf at Ex Ey SxPos SyPos SxLt SyLt SMono ⊢; linarith)

/-- Helper: on non-negative inputs the segment map stays in [0.35, 0.72]. -/
theorem score_to_probability_segments_bounds :
    ∀ x : ℝ, 0 ≤ x →
      0.35 ≤ score_to_probability_segments x ∧
      score_to_probability_segments x ≤ 0.72 := by
  intro x hx
  have Ex : (0:ℝ) < Real.exp (-5 * ((x - 0.6) / 0.4 - 0.5)) := Real.exp_pos _
  have SxPos : 0 < 1 / (1 + Real.exp (-5 * ((x - 0.6) / 0.4 - 0.5))) := by
    positivity
  have SxLt : 1 / (1 + Real.exp (-5 * ((x - 0.6) / 0.4 - 0.5))) < 1 := by
    rw [div_lt_one (by positivity)]
    linarith
  unfold score_to_probability_segments
  split_ifs <;> constructor <;>
    first
      | linarith
      | (ring_nf at Ex SxPos SxLt ⊢; linarith)

/-- C2: `score_to_probability` is monotonic non-decreasing on [0,100]
(`s1 < s2 ⇒ p(s1) ≤ p(s2)`), and for every real input — clamped before
mapping, never raising — the output lies in [0.35, 0.72]. -/
theorem score_to_probability_monotone_bounded :
    (∀ s1 s2 : ℝ, 0 ≤ s1 → s2 ≤ 100 → s1 < s2 →
      score_to_probability s1 ≤ score_to_probability s2) ∧
    (∀ s : ℝ, 0.35 ≤ score_to_probability s ∧
      score_to_probability s ≤ 0.72) := by
  constructor
  · intro s1 s2 _ _ h12
    unfold score_to_probability
    apply score_to_probability_segments_mono
    have h : max 0 (min 100 s1) ≤ max 0 (min 100 s2) :=
      max_le_max le_rfl (min_le_min le_rfl h12.le)
    linarith
  · intro s
    unfold score_to_probability
    apply score_to_probability_segments_bounds
    positivity

/-- Witness for C2 at scores 0 < 50 and at score 30. -/
theorem score_to_probability_monotone_bounded_witness :
    score_to_probability 0 ≤ score_to_probability 50 ∧
    0.35 ≤ score_to_probability 30 ∧ score_to_probability 30 ≤ 0.72 :=
  ⟨score_to_probability_monotone_bounded.1 0 50 (by norm_num) (by norm_num)
    (by norm_num),
   score_to_probability_monotone_bounded.2 30⟩
